import Mathlib

/-!
# Verification of the async-nitro swap-quote pipeline

A shallow embedding of the three source files of the repository:
`src/controllers/nitroController.ts` (chain lookup), `src/tools/nitro.ts`
(token lookup, quote lookup, LLM parameter extraction, and the `nitro`
orchestration pipeline).  Network calls are modelled by passing the remote
endpoint's observable behaviour in as an explicit argument; `new Date()`
timestamps are passed in as a `now : String` argument.  JavaScript
semantics that matter to the code are modelled explicitly: `||` treats the
empty string as falsy, `?.` short-circuits on `null`/`undefined`
(modelled by `Option`), property access on `undefined`/`null` throws a
`TypeError` that the enclosing `try`/`catch` converts to an error result,
and `JSON.parse` is modelled by a fuel-based JSON parser.
-/

namespace AsyncNitro

/-! ## JavaScript string helpers -/

/-- ASCII `toLowerCase`, chararacter-list based so that concrete inputs
evaluate by kernel reduction (`String.toLower` recurses on byte
positions and does not). -/
def strToLower (s : String) : String :=
  String.mk (s.data.map Char.toLower)

/-- JavaScript `hay.includes(needle)`: substring containment, with
`hay.includes("")` true. -/
def listIncludes (hay needle : List Char) : Bool :=
  match hay with
  | [] => needle.isEmpty
  | _ :: t => needle.isPrefixOf hay || listIncludes t needle

/-- Model of `field?.toLowerCase().includes(searchTerm)` where `field` may be
absent (`?.` short-circuits to a falsy `undefined`).  `searchTerm` is
expected to be lower-case already, as in the source. -/
def optIncludesCI (field : Option String) (searchTerm : String) : Bool :=
  match field with
  | none => false
  | some s => listIncludes (strToLower s).data searchTerm.data

/-- JavaScript `s || dflt` on an optional string field: `undefined`,
`null` and `""` are all falsy. -/
def jsOrDefault (field : Option String) (dflt : String) : String :=
  match field with
  | none => dflt
  | some s => if s = "" then dflt else s

/-- JavaScript `s || null` on an optional string field: the empty string
collapses to `null`. -/
def jsOrNull (field : Option String) : Option String :=
  match field with
  | none => none
  | some s => if s = "" then none else some s

/-- Model of `response.ok` of the Fetch API: status in the range 200-299. -/
def respOk (status : Nat) : Bool :=
  200 ≤ status && status < 300

/-! ## Chain lookup (`src/controllers/nitroController.ts`)

Raw records as delivered by the remote chain directory; every field may
be absent. -/

/-- A raw `gasToken` object from the chain directory. -/
structure RawGasToken where
  symbol : Option String
  address : Option String
  deriving DecidableEq, Repr

/-- Gas limits for one route kind (`{swap, transfer}`). -/
structure GasLimitPair where
  swap : Int
  transfer : Int
  deriving DecidableEq, Repr

/-- The `gasLimit` object (`{trustless, mintBurn, circle}`). -/
structure GasLimitGroup where
  trustless : GasLimitPair
  mintBurn : GasLimitPair
  circle : GasLimitPair
  deriving DecidableEq, Repr

/-- A raw chain record from the remote directory; all fields optional. -/
structure RawChain where
  name : Option String
  chainId : Option String
  type : Option String
  isLive : Option Bool
  isIntentApiSupported : Option Bool
  isRefuelEnabled : Option Bool
  isQREnabled : Option Bool
  gasToken : Option RawGasToken
  gasLimit : Option GasLimitGroup
  createdAt : Option String
  updatedAt : Option String
  deriving DecidableEq, Repr

/-- The inner `chain` object of a processed chain record. -/
structure ProcessedChainCore where
  name : String
  chainId : String
  type : String
  isLive : Bool
  deriving DecidableEq, Repr

/-- The `gas` object of a processed chain record (`token` may be `null`,
`limits` defaults to `{}`, modelled as `none`). -/
structure ProcessedGas where
  token : Option RawGasToken
  limits : Option GasLimitGroup
  deriving DecidableEq, Repr

/-- The `features` object of a processed chain record. -/
structure ProcessedFeatures where
  isIntentApiSupported : Bool
  isRefuelEnabled : Bool
  isQREnabled : Bool
  deriving DecidableEq, Repr

/-- The `metadata` object of a processed chain record. -/
structure ProcessedMetadata where
  createdAt : Option String
  updatedAt : Option String
  deriving DecidableEq, Repr

/-- One element of the `data` array returned on a successful chain
lookup. -/
structure ProcessedChain where
  chain : ProcessedChainCore
  gas : ProcessedGas
  features : ProcessedFeatures
  metadata : ProcessedMetadata
  url : String
  timestamp : String
  deriving DecidableEq, Repr

/-- The result object of `getChainDetails`.  `data` is `none` exactly
when the JS value is `null`; `count` is `none` when the field is absent
(the failure object carries no `count`). -/
structure ChainLookupResult where
  success : Bool
  data : Option (List ProcessedChain)
  message : String
  timestamp : String
  source : String
  count : Option Nat
  deriving DecidableEq, Repr

/-- Parsed JSON body of a chain directory response: either the `data`
field is missing or not an array (`malformed`), or it is an array of raw
chain records. -/
inductive ChainApiBody where
  | malformed
  | wellFormed (chains : List RawChain)
  deriving DecidableEq, Repr

/-- Observable behaviour of the remote chain directory endpoint for one
request.  `thrownError m` covers `fetch` rejecting or `response.json()`
throwing a JS `Error` with message `m`; `thrownNonError` covers a thrown
non-`Error` value. -/
inductive ChainApiBehavior where
  | thrownError (msg : String)
  | thrownNonError
  | response (status : Nat) (statusText : String) (body : ChainApiBody)
  deriving DecidableEq, Repr

/-- The per-chain filter predicate of `getChainDetails`:
`chain.name?.toLowerCase().includes(searchTerm) || ...` over `name`,
`chainId`, `type` and `gasToken?.symbol`. -/
def matchesChain (searchTerm : String) (c : RawChain) : Bool :=
  optIncludesCI c.name searchTerm ||
  optIncludesCI c.chainId searchTerm ||
  optIncludesCI c.type searchTerm ||
  optIncludesCI (c.gasToken.bind RawGasToken.symbol) searchTerm

/-- The per-chain reshaping of `getChainDetails` (`processedData` map).
JS `||` defaulting: `"Unknown"` for falsy `name`/`chainId`/`type`,
`false` for falsy booleans, `null` for falsy `gasToken`, `{}` for falsy
`gasLimit`, `null` for falsy timestamps.  In the `url` template literal
an absent `chainId` interpolates as the string `"undefined"`. -/
def processChain (now : String) (c : RawChain) : ProcessedChain :=
  { chain :=
      { name := jsOrDefault c.name "Unknown"
        chainId := jsOrDefault c.chainId "Unknown"
        type := jsOrDefault c.type "Unknown"
        isLive := c.isLive.getD false }
    gas := { token := c.gasToken, limits := c.gasLimit }
    features :=
      { isIntentApiSupported := c.isIntentApiSupported.getD false
        isRefuelEnabled := c.isRefuelEnabled.getD false
        isQREnabled := c.isQREnabled.getD false }
    metadata := { createdAt := jsOrNull c.createdAt, updatedAt := jsOrNull c.updatedAt }
    url := "https://routernitro.com/chain/" ++ (c.chainId.getD "undefined")
    timestamp := now }

/-- The structured failure object of `getChainDetails`. -/
def chainLookupFailure (msg now : String) : ChainLookupResult :=
  { success := false, data := none, message := msg, timestamp := now
    source := "RouterNitro", count := none }

/-- Model of `getChainDetails` of `src/controllers/nitroController.ts`: fetch the
chain directory, fail structurally on any thrown error, non-2xx status or
malformed `data` field, otherwise filter by case-insensitive substring
match and reshape. -/
def getChainDetails (api : ChainApiBehavior) (chainQuery : String)
    (now : String) : ChainLookupResult :=
  match api with
  | .thrownError msg => chainLookupFailure msg now
  | .thrownNonError => chainLookupFailure "An unknown error occurred" now
  | .response status statusText body =>
    if !respOk status then
      chainLookupFailure
        ("RouterNitro API error: " ++ toString status ++ " " ++ statusText) now
    else
      match body with
      | .malformed => chainLookupFailure "Invalid API response format" now
      | .wellFormed chains =>
        let searchTerm := strToLower chainQuery
        let matchingChains := chains.filter (matchesChain searchTerm)
        let processedData := matchingChains.map (processChain now)
        { success := true
          data := some processedData
          message :=
            if processedData.length > 0 then
              "Found " ++ toString processedData.length ++ " matching chains"
            else
              "No matching chains found"
          timestamp := now
          source := "RouterNitro"
          count := some processedData.length }

/-! ## Token lookup (`getTokenDetails` in `src/tools/nitro.ts`) -/

/-- A raw token record from `GET /token/:chainId`; all fields may be
absent or of the wrong type, which `TokenDetailsSchema.parse` rejects
(modelled by `none`). -/
structure RawToken where
  symbol : Option String
  address : Option String
  decimals : Option Int
  chainId : Option String
  deriving DecidableEq, Repr

/-- A record validated by `TokenDetailsSchema`
(`{symbol, address, decimals, chainId}`). -/
structure TokenDetails where
  symbol : String
  address : String
  decimals : Int
  chainId : String
  deriving DecidableEq, Repr

/-- Parsed JSON body of a token list response: `response.json()` throwing
is `invalidJson`; otherwise `dataField` is the `data` field (`none` when
absent or falsy, so that `data.data || []` yields `[]`). -/
inductive TokenApiBody where
  | invalidJson
  | json (dataField : Option (List RawToken))
  deriving DecidableEq, Repr

/-- Observable behaviour of the remote token endpoint for one request. -/
inductive TokenApiBehavior where
  | thrownError
  | response (status : Nat) (statusText : String) (body : TokenApiBody)
  deriving DecidableEq, Repr

/-- Model of `TokenDetailsSchema.parse`: succeeds exactly when all four fields are
present (with the right type). -/
def parseTokenDetails (t : RawToken) : Option TokenDetails :=
  match t.symbol, t.address, t.decimals, t.chainId with
  | some s, some a, some d, some c => some ⟨s, a, d, c⟩
  | _, _, _, _ => none

/-- Model of `tokens.find(t => t.symbol.toLowerCase() === tokenSymbol.toLowerCase())`.
There is no `?.` on `t.symbol` in the source, so a scanned token with no
`symbol` throws a `TypeError` (`Except.error ()`), which the enclosing
`catch` converts to `null`. -/
def findTokenBySymbol (tokens : List RawToken) (tokenSymbol : String) :
    Except Unit (Option RawToken) :=
  match tokens with
  | [] => .ok none
  | t :: rest =>
    match t.symbol with
    | none => .error ()
    | some s =>
      if strToLower s = strToLower tokenSymbol then .ok (some t)
      else findTokenBySymbol rest tokenSymbol

/-- Model of `getTokenDetails` of `src/tools/nitro.ts`: returns the first
case-insensitive exact symbol match, validated by
`TokenDetailsSchema.parse`, or `null` (`none`) on no-match or on any
thrown error (network failure, non-2xx status, invalid JSON, a token
without `symbol`, schema-validation failure). -/
def getTokenDetails (api : TokenApiBehavior) (_chainId : String)
    (tokenSymbol : String) : Option TokenDetails :=
  match api with
  | .thrownError => none
  | .response status _ body =>
    if !respOk status then none
    else
      match body with
      | .invalidJson => none
      | .json dataField =>
        let tokens := dataField.getD []
        match findTokenBySymbol tokens tokenSymbol with
        | .error _ => none
        | .ok none => none
        | .ok (some t) => parseTokenDetails t

/-! ## Quote lookup (`getTransactionDetails` in `src/tools/nitro.ts`) -/

/-- The request body of `POST /quote`. -/
structure QuoteParams where
  fromChainId : String
  toChainId : String
  fromTokenAddress : String
  toTokenAddress : String
  amount : String
  deriving DecidableEq, Repr

/-- A raw quote response; each field required by `QuoteResponseSchema`
may be absent or ill-typed (modelled by `none`).  Elements of `route`
are unconstrained (`z.any()`), modelled as `Unit`. -/
structure RawQuote where
  estimatedGas : Option Int
  route : Option (List Unit)
  expectedOutput : Option String
  priceImpact : Option String
  deriving DecidableEq, Repr

/-- A quote validated by `QuoteResponseSchema`. -/
structure QuoteResponse where
  estimatedGas : Int
  route : List Unit
  expectedOutput : String
  priceImpact : String
  deriving DecidableEq, Repr

/-- Parsed JSON body of a quote response. -/
inductive QuoteApiBody where
  | invalidJson
  | json (raw : RawQuote)
  deriving DecidableEq, Repr

/-- Observable behaviour of the remote quote endpoint for one request. -/
inductive QuoteApiBehavior where
  | thrownError
  | response (status : Nat) (statusText : String) (body : QuoteApiBody)
  deriving DecidableEq, Repr

/-- Model of `QuoteResponseSchema.parse`: succeeds exactly when all four fields
are present (with the right type). -/
def parseQuoteResponse (q : RawQuote) : Option QuoteResponse :=
  match q.estimatedGas, q.route, q.expectedOutput, q.priceImpact with
  | some g, some r, some o, some p => some ⟨g, r, o, p⟩
  | _, _, _, _ => none

/-- Model of `getTransactionDetails` of `src/tools/nitro.ts`: POSTs a quote
request and returns the schema-validated response, or `null` (`none`) on
any thrown error (network failure, non-2xx status, invalid JSON,
schema-validation failure). -/
def getTransactionDetails (api : QuoteApiBehavior) (_params : QuoteParams) :
    Option QuoteResponse :=
  match api with
  | .thrownError => none
  | .response status _ body =>
    if !respOk status then none
    else
      match body with
      | .invalidJson => none
      | .json raw => parseQuoteResponse raw

/-! ## A model of `JSON.parse`

`extractTransactionDetails` feeds a substring of the LLM reply to
`JSON.parse`; we model it by a fuel-based recursive-descent parser for
the JSON grammar. -/

/-- A parsed JSON value.  Numbers keep their raw lexeme; nothing in the
pipeline reads a numeric value. -/
inductive JVal where
  | null
  | bool (b : Bool)
  | num (raw : String)
  | str (s : String)
  | arr (elems : List JVal)
  | obj (members : List (String × JVal))

/-- JSON insignificant whitespace. -/
def isJsonWs (c : Char) : Bool :=
  c = ' ' || c = '\n' || c = '\r' || c = '\t'

/-- Drop leading JSON whitespace. -/
def skipWs (cs : List Char) : List Char :=
  match cs with
  | [] => []
  | c :: rest => if isJsonWs c then skipWs rest else cs

/-- Value of one hex digit. -/
def hexDigitVal (c : Char) : Option Nat :=
  if c.isDigit then some (c.toNat - 48)
  else if 'a' ≤ c && c ≤ 'f' then some (c.toNat - 87)
  else if 'A' ≤ c && c ≤ 'F' then some (c.toNat - 55)
  else none

/-- Parse the body of a JSON string after the opening quote, returning
the decoded characters and the remaining input after the closing quote.
A `\uXXXX` escape naming a non-scalar code point (a lone surrogate)
decodes to `Char.ofNat`'s fallback character. -/
def parseStringBody : Nat → List Char → Option (List Char × List Char)
  | 0, _ => none
  | _ + 1, [] => none
  | fuel + 1, c :: rest =>
    if c = '"' then some ([], rest)
    else if c = '\\' then
      match rest with
      | [] => none
      | e :: rest2 =>
        if e = '"' || e = '\\' || e = '/' then
          (parseStringBody fuel rest2).map (fun p => (e :: p.1, p.2))
        else if e = 'b' then
          (parseStringBody fuel rest2).map (fun p => (Char.ofNat 8 :: p.1, p.2))
        else if e = 'f' then
          (parseStringBody fuel rest2).map (fun p => (Char.ofNat 12 :: p.1, p.2))
        else if e = 'n' then
          (parseStringBody fuel rest2).map (fun p => ('\n' :: p.1, p.2))
        else if e = 'r' then
          (parseStringBody fuel rest2).map (fun p => ('\r' :: p.1, p.2))
        else if e = 't' then
          (parseStringBody fuel rest2).map (fun p => ('\t' :: p.1, p.2))
        else if e = 'u' then
          match rest2 with
          | h1 :: h2 :: h3 :: h4 :: rest3 =>
            match hexDigitVal h1, hexDigitVal h2, hexDigitVal h3, hexDigitVal h4 with
            | some a, some b, some c2, some d =>
              (parseStringBody fuel rest3).map
                (fun p => (Char.ofNat (((a * 16 + b) * 16 + c2) * 16 + d) :: p.1, p.2))
            | _, _, _, _ => none
          | _ => none
        else none
    else if c.toNat < 32 then none
    else (parseStringBody fuel rest).map (fun p => (c :: p.1, p.2))

/-- Parse the exponent part of a JSON number, if present. -/
def parseNumExp (acc : List Char) (cs : List Char) : Option (List Char × List Char) :=
  match cs with
  | e :: rest =>
    if e = 'e' || e = 'E' then
      let sgnRest : List Char × List Char :=
        match rest with
        | s :: r => if s = '+' || s = '-' then ([s], r) else ([], rest)
        | [] => ([], rest)
      let ds := sgnRest.2.span Char.isDigit
      if ds.1.isEmpty then none
      else some (acc ++ e :: (sgnRest.1 ++ ds.1), ds.2)
    else some (acc, cs)
  | [] => some (acc, cs)

/-- Parse the fraction and exponent parts of a JSON number. -/
def parseNumFracExp (acc : List Char) (cs : List Char) : Option (List Char × List Char) :=
  match cs with
  | '.' :: rest =>
    let ds := rest.span Char.isDigit
    if ds.1.isEmpty then none
    else parseNumExp (acc ++ '.' :: ds.1) ds.2
  | _ => parseNumExp acc cs

/-- Parse a JSON number lexeme (`-? (0 | [1-9][0-9]*) frac? exp?`),
returning the consumed characters and the rest. -/
def parseNumberBody (cs : List Char) : Option (List Char × List Char) :=
  let signRest : List Char × List Char :=
    match cs with
    | '-' :: rest => (['-'], rest)
    | _ => ([], cs)
  match signRest.2 with
  | [] => none
  | c :: rest =>
    if c = '0' then parseNumFracExp (signRest.1 ++ ['0']) rest
    else if c.isDigit then
      let ds := rest.span Char.isDigit
      parseNumFracExp (signRest.1 ++ c :: ds.1) ds.2
    else none

mutual

/-- Parse one JSON value (leading whitespace allowed), returning the
value and the remaining input. -/
def parseJVal : Nat → List Char → Option (JVal × List Char)
  | 0, _ => none
  | fuel + 1, cs =>
    match skipWs cs with
    | [] => none
    | c :: rest =>
      if c = '"' then
        match parseStringBody (rest.length + 1) rest with
        | some (body, rest2) => some (.str (String.mk body), rest2)
        | none => none
      else if c = '{' then
        match skipWs rest with
        | '}' :: rest2 => some (.obj [], rest2)
        | _ =>
          match parseObjMembers fuel rest with
          | some (ms, rest2) => some (.obj ms, rest2)
          | none => none
      else if c = '[' then
        match skipWs rest with
        | ']' :: rest2 => some (.arr [], rest2)
        | _ =>
          match parseArrElems fuel rest with
          | some (vs, rest2) => some (.arr vs, rest2)
          | none => none
      else if c = 't' then
        if ['r', 'u', 'e'].isPrefixOf rest then some (.bool true, rest.drop 3)
        else none
      else if c = 'f' then
        if ['a', 'l', 's', 'e'].isPrefixOf rest then some (.bool false, rest.drop 4)
        else none
      else if c = 'n' then
        if ['u', 'l', 'l'].isPrefixOf rest then some (.null, rest.drop 3)
        else none
      else if c = '-' || c.isDigit then
        match parseNumberBody (c :: rest) with
        | some (raw, rest2) => some (.num (String.mk raw), rest2)
        | none => none
      else none

/-- Parse a nonempty `"key": value` member list of a JSON object,
consuming the closing `}`. -/
def parseObjMembers : Nat → List Char → Option (List (String × JVal) × List Char)
  | 0, _ => none
  | fuel + 1, cs =>
    match skipWs cs with
    | '"' :: rest =>
      match parseStringBody (rest.length + 1) rest with
      | some (keyChars, rest2) =>
        match skipWs rest2 with
        | ':' :: rest3 =>
          match parseJVal fuel rest3 with
          | some (v, rest4) =>
            match skipWs rest4 with
            | ',' :: rest5 =>
              match parseObjMembers fuel rest5 with
              | some (ms, rest6) => some ((String.mk keyChars, v) :: ms, rest6)
              | none => none
            | '}' :: rest5 => some ([(String.mk keyChars, v)], rest5)
            | _ => none
          | none => none
        | _ => none
      | none => none
    | _ => none

/-- Parse a nonempty element list of a JSON array, consuming the closing
`]`. -/
def parseArrElems : Nat → List Char → Option (List JVal × List Char)
  | 0, _ => none
  | fuel + 1, cs =>
    match parseJVal fuel cs with
    | some (v, rest) =>
      match skipWs rest with
      | ',' :: rest2 =>
        match parseArrElems fuel rest2 with
        | some (vs, rest3) => some (v :: vs, rest3)
        | none => none
      | ']' :: rest2 => some ([v], rest2)
      | _ => none
    | none => none

end

/-- Model of `JSON.parse`: the whole input must be one JSON value, up to
surrounding whitespace.  Fuel `2 * length + 2` suffices: every two fuel
decrements consume at least one character. -/
def jsonParse (s : String) : Option JVal :=
  match parseJVal (2 * s.length + 2) s.data with
  | some (v, rest) => if (skipWs rest).isEmpty then some v else none
  | none => none

/-! ## Parameter extraction (`extractTransactionDetails` in
`src/tools/nitro.ts`) -/

/-- A record validated by `TransactionDetailsSchema`
(five required string fields). -/
structure TransactionDetails where
  fromChain : String
  toChain : String
  amount : String
  fromToken : String
  toToken : String
  deriving DecidableEq, Repr

/-- The `content` of the LLM reply: a plain string, or a structured
(array-valued) content, which `TransactionDetailsSchema.parse` always
rejects since the schema expects an object. -/
inductive LLMContent where
  | str (s : String)
  | complex

/-- The JS regex match `content.match(/\x7b[\s\S]*\x7d/)`: the match, if
any, runs from the first opening brace of the string to the last closing
brace at or after it. -/
def extractBraces (s : String) : Option String :=
  let tail := s.data.dropWhile (fun c => c ≠ '{')
  match tail.reverse.findIdx? (fun c => c = '}') with
  | none => none
  | some k => some (String.mk (tail.take (tail.length - k)))

/-- Last-occurrence key lookup in a JSON object's member list, matching
the JS semantics of duplicate keys in an object literal. -/
def lookupLastStr (members : List (String × JVal)) (key : String) : Option JVal :=
  match members with
  | [] => none
  | (k, v) :: rest =>
    match lookupLastStr rest key with
    | some w => some w
    | none => if k = key then some v else none

/-- Read a required string field of a JSON object member list. -/
def getStrField (members : List (String × JVal)) (key : String) : Option String :=
  match lookupLastStr members key with
  | some (.str s) => some s
  | _ => none

/-- Model of `TransactionDetailsSchema.parse`: the value must be a JSON object
with string values at all five required keys; unknown keys are
stripped. -/
def validateTransactionDetails (v : JVal) : Option TransactionDetails :=
  match v with
  | .obj ms =>
    match getStrField ms "fromChain", getStrField ms "toChain",
        getStrField ms "amount", getStrField ms "fromToken",
        getStrField ms "toToken" with
    | some fc, some tc, some am, some ft, some tt => some ⟨fc, tc, am, ft, tt⟩
    | _, _, _, _, _ => none
  | _ => none

/-- Modelled engine-generated `SyntaxError` message of `JSON.parse`; the
pipeline never inspects its text. -/
def jsonSyntaxErrorMsg : String := "Unexpected token in JSON"

/-- Modelled zod validation-error message of
`TransactionDetailsSchema.parse`; the pipeline never inspects its
text. -/
def zodTxErrorMsg : String := "Invalid transaction details"

/-- Model of `extractTransactionDetails` of `src/tools/nitro.ts`, as a function of
the resolved LLM call (`llm.invoke` resolving to a content, or rejecting
with an error message).  The inner `catch` prefixes
`Failed to parse transaction details: `, the outer `catch` prefixes
`Failed to extract transaction parameters: `. -/
def extractTransactionDetails (llmResult : Except String LLMContent) :
    Except String TransactionDetails :=
  match llmResult with
  | .error e => .error ("Failed to extract transaction parameters: " ++ e)
  | .ok content =>
    let inner : Except String TransactionDetails :=
      match content with
      | .complex => .error zodTxErrorMsg
      | .str s =>
        match extractBraces s with
        | none => .error "No JSON object found in LLM response"
        | some sub =>
          match jsonParse sub with
          | none => .error jsonSyntaxErrorMsg
          | some v =>
            match validateTransactionDetails v with
            | some d => .ok d
            | none => .error zodTxErrorMsg
    match inner with
    | .ok d => .ok d
    | .error m =>
      .error ("Failed to extract transaction parameters: Failed to parse transaction details: " ++ m)

/-! ## The orchestration pipeline (`nitro` in `src/tools/nitro.ts`) -/

/-- The artifact (second tuple element) returned by the `nitro` tool:
one constructor per `return` site. -/
inductive NitroArtifact where
  /-- `{error: "Invalid chain information", details: {fromChainResult, toChainResult}}` -/
  | chainError (fromChainResult toChainResult : ChainLookupResult)
  /-- `{error: "Invalid token information", details: {fromToken, toToken}}` -/
  | tokenError (fromToken toToken : Option TokenDetails)
  /-- `{error: "Error getting quote"}` -/
  | quoteError
  /-- `{fromChain, toChain, fromToken, toToken, amount, quote}` -/
  | success (fromChain toChain : ProcessedChainCore)
      (fromToken toToken : TokenDetails) (amount : String) (quote : QuoteResponse)
  /-- `{error, query}` from the outer `catch` -/
  | genericError (error : String) (query : String)
  deriving DecidableEq, Repr

/-- One run of the `nitro` tool: the returned two-element tuple
(message, artifact), instrumented with how many token-lookup and
quote-lookup calls were started. -/
structure NitroOutcome where
  message : String
  artifact : NitroArtifact
  tokenCalls : Nat
  quoteCalls : Nat
  deriving DecidableEq, Repr

/-- The outer-catch message of the `nitro` tool. -/
def genericErrorMsg : String :=
  "An error occurred while processing your request. Please try again."

/-- The chain-failure message of the `nitro` tool. -/
def chainFailMsg : String :=
  "Failed to fetch chain details. Please check the chain names and try again."

/-- The token-failure message of the `nitro` tool. -/
def tokenFailMsg : String :=
  "Failed to fetch token details. Please check the token symbols and try again."

/-- The quote-failure message of the `nitro` tool. -/
def quoteFailMsg : String :=
  "Failed to fetch quote. Please try again with different parameters."

/-- Modelled V8 `TypeError` message for `fromChainResult.data[0]` when
`data` is `null`; the pipeline never inspects its text. -/
def nullIndexErrorMsg : String :=
  "Cannot read properties of null (reading '0')"

/-- Modelled V8 `TypeError` message for `fromChain.chainId` /
`toChain.chainId` when the chain is `undefined` (empty match list); the
pipeline never inspects its text. -/
def undefinedChainIdErrorMsg : String :=
  "Cannot read properties of undefined (reading 'chainId')"

/-- The success-path summary string of the `nitro` tool. -/
def formatRouteMsg (details : TransactionDetails) (quote : QuoteResponse) : String :=
  "Found route to " ++ details.toToken ++ " on " ++ details.toChain ++
  " chain:\n- Amount: " ++ details.amount ++ " " ++ details.fromToken ++
  "\n- Expected output: " ++ quote.expectedOutput ++ " " ++ details.toToken ++
  "\n- Price impact: " ++ quote.priceImpact ++
  "\n- Estimated gas: " ++ toString quote.estimatedGas

/-- The `nitro` tool of `src/tools/nitro.ts`, as a function of the
observable behaviour of its collaborators: the resolved LLM call, the
chain directory endpoint (per queried chain name), the token endpoint
(per chain id and symbol) and the quote endpoint (per request body).

JS details mirrored here: when a chain lookup succeeds with an empty
match list, `fromChainResult.data[0]?.chain` is `undefined` and the later
`fromChain.chainId` throws a `TypeError` that the outer `catch` turns
into the generic error tuple.  When only the `to` side is empty, the
first `getTokenDetails(...)` call has already been started (argument
evaluation is left to right), so one token call is counted. -/
def nitro (llmResult : Except String LLMContent)
    (chainApi : String → ChainApiBehavior)
    (tokenApi : String → String → TokenApiBehavior)
    (quoteApi : QuoteParams → QuoteApiBehavior)
    (query : String) (now : String) : NitroOutcome :=
  match extractTransactionDetails llmResult with
  | .error e => ⟨genericErrorMsg, .genericError e query, 0, 0⟩
  | .ok details =>
    let fromChainResult := getChainDetails (chainApi details.fromChain) details.fromChain now
    let toChainResult := getChainDetails (chainApi details.toChain) details.toChain now
    if !fromChainResult.success || !toChainResult.success then
      ⟨chainFailMsg, .chainError fromChainResult toChainResult, 0, 0⟩
    else
      match fromChainResult.data with
      | none => ⟨genericErrorMsg, .genericError nullIndexErrorMsg query, 0, 0⟩
      | some fromList =>
        match toChainResult.data with
        | none => ⟨genericErrorMsg, .genericError nullIndexErrorMsg query, 0, 0⟩
        | some toList =>
          match fromList.head? with
          | none => ⟨genericErrorMsg, .genericError undefinedChainIdErrorMsg query, 0, 0⟩
          | some fromProcessed =>
            match toList.head? with
            | none => ⟨genericErrorMsg, .genericError undefinedChainIdErrorMsg query, 1, 0⟩
            | some toProcessed =>
              let fromChain := fromProcessed.chain
              let toChain := toProcessed.chain
              let fromToken :=
                getTokenDetails (tokenApi fromChain.chainId details.fromToken)
                  fromChain.chainId details.fromToken
              let toToken :=
                getTokenDetails (tokenApi toChain.chainId details.toToken)
                  toChain.chainId details.toToken
              match fromToken, toToken with
              | none, _ | _, none =>
                ⟨tokenFailMsg, .tokenError fromToken toToken, 2, 0⟩
              | some ft, some tt =>
                let params : QuoteParams :=
                  ⟨fromChain.chainId, toChain.chainId, ft.address, tt.address, details.amount⟩
                match getTransactionDetails (quoteApi params) params with
                | none => ⟨quoteFailMsg, .quoteError, 2, 1⟩
                | some transactionDetails =>
                  ⟨formatRouteMsg details transactionDetails,
                    .success fromChain toChain ft tt details.amount transactionDetails, 2, 1⟩

/-! ## Claim theorems -/

/-- C7: for every input query and every behaviour of the remote chain
directory API (including a thrown error, a non-2xx status and a malformed
or missing `data` field), `getChainDetails` never throws: it resolves
either to a success object or to the structured failure object
`{success:false, data:null, message, timestamp, source}` (with no `count`
field). -/
theorem getChainDetails_never_throws (api : ChainApiBehavior) (q now : String) :
    (getChainDetails api q now).success = true ∨
      ((getChainDetails api q now).success = false ∧
       (getChainDetails api q now).data = none ∧
       (getChainDetails api q now).count = none ∧
       (getChainDetails api q now).source = "RouterNitro" ∧
       (getChainDetails api q now).timestamp = now) := by
  cases api with
  | thrownError m => exact Or.inr ⟨rfl, rfl, rfl, rfl, rfl⟩
  | thrownNonError => exact Or.inr ⟨rfl, rfl, rfl, rfl, rfl⟩
  | response status statusText body =>
    by_cases hOk : respOk status = true
    · cases body with
      | malformed =>
        refine Or.inr ?_
        simp [getChainDetails, chainLookupFailure, hOk]
      | wellFormed chains =>
        refine Or.inl ?_
        simp [getChainDetails, hOk]
    · refine Or.inr ?_
      rw [Bool.not_eq_true] at hOk
      simp [getChainDetails, chainLookupFailure, hOk]

/-- C2: a successful chain lookup returns `success:true` with `data`
exactly the fetched chains whose `name`, `chainId`, `type` or
`gasToken.symbol` contains the query as a case-insensitive substring,
each matching chain exactly once, reshaped with defaults `"Unknown"` for
absent `name`/`chainId`/`type`, `false` for absent booleans, `{}` for
absent `gasLimit`, `null` for absent `gasToken`/`createdAt`/`updatedAt`;
zero matches give `{success:true, data:[], count:0}` with message
`"No matching chains found"`. -/
theorem getChainDetails_success_spec (chains : List RawChain)
    (q sx now : String) (status : Nat) (hOk : respOk status = true) :
    (getChainDetails (.response status sx (.wellFormed chains)) q now).success = true ∧
    (getChainDetails (.response status sx (.wellFormed chains)) q now).data =
      some ((chains.filter (matchesChain (strToLower q))).map (processChain now)) ∧
    (∀ c : RawChain, matchesChain (strToLower q) c =
      (optIncludesCI c.name (strToLower q) || optIncludesCI c.chainId (strToLower q) ||
       optIncludesCI c.type (strToLower q) ||
       optIncludesCI (c.gasToken.bind RawGasToken.symbol) (strToLower q))) ∧
    (getChainDetails (.response status sx (.wellFormed chains)) q now).count =
      some (chains.filter (matchesChain (strToLower q))).length ∧
    (chains.filter (matchesChain (strToLower q)) = [] →
      getChainDetails (.response status sx (.wellFormed chains)) q now =
        { success := true, data := some [], message := "No matching chains found",
          timestamp := now, source := "RouterNitro", count := some 0 }) ∧
    (∀ c : RawChain,
      (c.name = none → (processChain now c).chain.name = "Unknown") ∧
      (c.chainId = none → (processChain now c).chain.chainId = "Unknown") ∧
      (c.type = none → (processChain now c).chain.type = "Unknown") ∧
      (c.isLive = none → (processChain now c).chain.isLive = false) ∧
      (c.isIntentApiSupported = none →
        (processChain now c).features.isIntentApiSupported = false) ∧
      (c.isRefuelEnabled = none → (processChain now c).features.isRefuelEnabled = false) ∧
      (c.isQREnabled = none → (processChain now c).features.isQREnabled = false) ∧
      (c.gasLimit = none → (processChain now c).gas.limits = none) ∧
      (c.gasToken = none → (processChain now c).gas.token = none) ∧
      (c.createdAt = none → (processChain now c).metadata.createdAt = none) ∧
      (c.updatedAt = none → (processChain now c).metadata.updatedAt = none)) := by
  refine ⟨?_, ?_, fun c => rfl, ?_, ?_, ?_⟩
  · simp [getChainDetails, hOk]
  · simp [getChainDetails, hOk]
  · simp [getChainDetails, hOk]
  · intro hnil
    simp [getChainDetails, hOk, hnil]
  · intro c
    refine ⟨?_, ?_, ?_, ?_, ?_, ?_, ?_, ?_, ?_, ?_, ?_⟩ <;>
      intro h <;> simp [processChain, jsOrDefault, jsOrNull, h]

/-- Witness for C2 at a concrete input: one chain with every optional
field absent matches the empty query, is reshaped to all defaults, and a
non-matching query yields the zero-match result. -/
theorem getChainDetails_success_spec_witness :
    (getChainDetails (.response 200 "OK"
        (.wellFormed [⟨none, none, none, none, none, none, none, none, none, none, none⟩]))
      "zzz" "T") =
      { success := true, data := some [], message := "No matching chains found",
        timestamp := "T", source := "RouterNitro", count := some 0 } ∧
    (processChain "T" ⟨none, none, none, none, none, none, none, none, none, none, none⟩).chain.name
      = "Unknown" := by
  have h := getChainDetails_success_spec
    [⟨none, none, none, none, none, none, none, none, none, none, none⟩]
    "zzz" "OK" "T" 200 (by decide)
  exact ⟨h.2.2.2.2.1 (by decide),
    (h.2.2.2.2.2 ⟨none, none, none, none, none, none, none, none, none, none, none⟩).1 rfl⟩

/-- The linear scan finds the first case-insensitive symbol match: every
earlier token carries a symbol (no `TypeError`) that does not match. -/
theorem findTokenBySymbol_first_match (pre post : List RawToken) (t : RawToken)
    (sym ts : String)
    (hpre : ∀ u ∈ pre, ∃ us, u.symbol = some us ∧ strToLower us ≠ strToLower sym)
    (hts : t.symbol = some ts) (hmatch : strToLower ts = strToLower sym) :
    findTokenBySymbol (pre ++ t :: post) sym = .ok (some t) := by
  induction pre with
  | nil => simp [findTokenBySymbol, hts, hmatch]
  | cons u rest ih =>
    obtain ⟨us, hus, hne⟩ := hpre u (by simp)
    simpa [findTokenBySymbol, hus, hne] using
      ih (fun v hv => hpre v (by simp [hv]))

/-- The linear scan returns no token when every token carries a
non-matching symbol. -/
theorem findTokenBySymbol_no_match (tokens : List RawToken) (sym : String)
    (h : ∀ u ∈ tokens, ∃ us, u.symbol = some us ∧ strToLower us ≠ strToLower sym) :
    findTokenBySymbol tokens sym = .ok none := by
  induction tokens with
  | nil => rfl
  | cons u rest ih =>
    obtain ⟨us, hus, hne⟩ := h u (by simp)
    simpa [findTokenBySymbol, hus, hne] using
      ih (fun v hv => h v (by simp [hv]))

/-- Any token the linear scan returns is a member of the scanned list. -/
theorem findTokenBySymbol_mem (tokens : List RawToken) (sym : String)
    (t : RawToken) (h : findTokenBySymbol tokens sym = .ok (some t)) :
    t ∈ tokens := by
  induction tokens with
  | nil => simp [findTokenBySymbol] at h
  | cons u rest ih =>
    rw [findTokenBySymbol] at h
    cases hu : u.symbol with
    | none => simp [hu] at h
    | some us =>
      rw [hu] at h
      by_cases he : strToLower us = strToLower sym
      · simp [he] at h
        simp [h]
      · simp [he] at h
        exact List.mem_cons_of_mem u (ih h)

/-- C4: the token lookup performs a linear case-insensitive exact-match
scan on `symbol` over the fetched token list and returns the first match
(validated by `TokenDetailsSchema.parse`), or `null` on no-match or on
any fetch/parse error; for the list `[ETH, USDC]`, looking up `"eth"`
returns the ETH record and looking up `"DOGE"` returns `null`. -/
theorem getTokenDetails_scan_spec :
    (∀ cid sym, getTokenDetails .thrownError cid sym = none) ∧
    (∀ status sx body cid sym, respOk status = false →
      getTokenDetails (.response status sx body) cid sym = none) ∧
    (∀ status sx cid sym,
      getTokenDetails (.response status sx .invalidJson) cid sym = none) ∧
    (∀ status sx cid sym (pre post : List RawToken) (t : RawToken) (ts : String),
      respOk status = true →
      (∀ u ∈ pre, ∃ us, u.symbol = some us ∧ strToLower us ≠ strToLower sym) →
      t.symbol = some ts → strToLower ts = strToLower sym →
      getTokenDetails (.response status sx (.json (some (pre ++ t :: post)))) cid sym =
        parseTokenDetails t) ∧
    (∀ status sx cid sym (tokens : List RawToken),
      (∀ u ∈ tokens, ∃ us, u.symbol = some us ∧ strToLower us ≠ strToLower sym) →
      getTokenDetails (.response status sx (.json (some tokens))) cid sym = none) ∧
    (getTokenDetails (.response 200 "OK" (.json (some
        [⟨some "ETH", some "0xeth", some 18, some "1"⟩,
         ⟨some "USDC", some "0xusdc", some 6, some "1"⟩]))) "1" "eth" =
      some ⟨"ETH", "0xeth", 18, "1"⟩) ∧
    (getTokenDetails (.response 200 "OK" (.json (some
        [⟨some "ETH", some "0xeth", some 18, some "1"⟩,
         ⟨some "USDC", some "0xusdc", some 6, some "1"⟩]))) "1" "DOGE" = none) := by
  refine ⟨fun cid sym => rfl, ?_, ?_, ?_, ?_, by decide, by decide⟩
  · intro status sx body cid sym hBad
    simp [getTokenDetails, hBad]
  · intro status sx cid sym
    by_cases hOk : respOk status = true
    · simp [getTokenDetails, hOk]
    · rw [Bool.not_eq_true] at hOk
      simp [getTokenDetails, hOk]
  · intro status sx cid sym pre post t ts hOk hpre hts hmatch
    simp [getTokenDetails, hOk,
      findTokenBySymbol_first_match pre post t sym ts hpre hts hmatch]
  · intro status sx cid sym tokens hnone
    by_cases hOk : respOk status = true
    · simp [getTokenDetails, hOk, findTokenBySymbol_no_match tokens sym hnone]
    · rw [Bool.not_eq_true] at hOk
      simp [getTokenDetails, hOk]

/-- Witness for C4 at a concrete input: with a non-matching token ahead
of it, the BTC record is returned as the first match of `"btc"`. -/
theorem getTokenDetails_scan_spec_witness :
    getTokenDetails (.response 200 "OK" (.json (some
        [⟨some "ETH", some "0xeth", some 18, some "1"⟩,
         ⟨some "BTC", some "0xbtc", some 8, some "1"⟩,
         ⟨some "BTC", some "0xother", some 8, some "1"⟩]))) "1" "btc" =
      some ⟨"BTC", "0xbtc", 8, "1"⟩ :=
  getTokenDetails_scan_spec.2.2.2.1 200 "OK" "1" "btc"
    [⟨some "ETH", some "0xeth", some 18, some "1"⟩]
    [⟨some "BTC", some "0xother", some 8, some "1"⟩]
    ⟨some "BTC", some "0xbtc", some 8, some "1"⟩ "BTC"
    (by decide)
    (by
      intro u hu
      simp at hu
      exact ⟨"ETH", by simp [hu], by decide⟩)
    rfl (by decide)

/-- C10: every non-`null` token-lookup result satisfies the
`TokenDetailsSchema`: it arises from a fetched record with all four
fields present, and if the first symbol-matching token fails the schema
the lookup returns `null` rather than an ill-typed record. -/
theorem getTokenDetails_schema_invariant :
    (∀ status sx (dataField : Option (List RawToken)) cid sym tok,
      getTokenDetails (.response status sx (.json dataField)) cid sym = some tok →
      ∃ raw ∈ dataField.getD [], parseTokenDetails raw = some tok) ∧
    (∀ raw tok, parseTokenDetails raw = some tok →
      raw.symbol = some tok.symbol ∧ raw.address = some tok.address ∧
      raw.decimals = some tok.decimals ∧ raw.chainId = some tok.chainId) ∧
    (∀ status sx cid sym (pre post : List RawToken) (t : RawToken) (ts : String),
      (∀ u ∈ pre, ∃ us, u.symbol = some us ∧ strToLower us ≠ strToLower sym) →
      t.symbol = some ts → strToLower ts = strToLower sym →
      (t.address = none ∨ t.decimals = none ∨ t.chainId = none) →
      getTokenDetails (.response status sx (.json (some (pre ++ t :: post)))) cid sym =
        none) := by
  refine ⟨?_, ?_, ?_⟩
  · intro status sx dataField cid sym tok h
    rw [getTokenDetails] at h
    by_cases hOk : respOk status = true
    · rw [hOk] at h
      simp only [Bool.not_true, if_false] at h
      cases hf : findTokenBySymbol (dataField.getD []) sym with
      | error e => rw [hf] at h; cases h
      | ok o =>
        cases o with
        | none => rw [hf] at h; cases h
        | some t =>
          rw [hf] at h
          exact ⟨t, findTokenBySymbol_mem _ _ _ hf, h⟩
    · rw [Bool.not_eq_true] at hOk
      rw [hOk] at h
      simp at h
  · intro raw tok h
    rcases raw with ⟨s, a, d, c⟩
    cases s <;> cases a <;> cases d <;> cases c <;>
      first
        | exact Option.noConfusion h
        | (injection h with h2; subst h2; exact ⟨rfl, rfl, rfl, rfl⟩)
  · intro status sx cid sym pre post t ts hpre hts hmatch hbad
    by_cases hOk : respOk status = true
    · have hfind := findTokenBySymbol_first_match pre post t sym ts hpre hts hmatch
      rcases t with ⟨s, a, d, c⟩
      rcases hbad with h | h | h <;>
        simp_all [getTokenDetails, hOk, parseTokenDetails]
    · rw [Bool.not_eq_true] at hOk
      simp [getTokenDetails, hOk]

/-- Witness for C10 at a concrete input: the first match for `"btc"` has
no `decimals`, so the lookup returns `null` even though a later record
is well-formed. -/
theorem getTokenDetails_schema_invariant_witness :
    getTokenDetails (.response 200 "OK" (.json (some
        [⟨some "BTC", some "0xbtc", none, some "1"⟩,
         ⟨some "BTC", some "0xother", some 8, some "1"⟩]))) "1" "btc" = none :=
  getTokenDetails_schema_invariant.2.2 200 "OK" "1" "btc" []
    [⟨some "BTC", some "0xother", some 8, some "1"⟩]
    ⟨some "BTC", some "0xbtc", none, some "1"⟩ "BTC"
    (by intro u hu; cases hu) rfl (by decide) (Or.inr (Or.inl rfl))

/-- C5: the quote lookup resolves to `null` (and never throws past the
lookup boundary, being a total function) whenever the transport fails,
the HTTP status is non-2xx, the body is not valid JSON, or the response
fails validation against
`{estimatedGas: number, route: array, expectedOutput: string, priceImpact: string}`;
in particular a response missing `priceImpact` resolves to `null`. -/
theorem getTransactionDetails_null_on_failure :
    (∀ p, getTransactionDetails .thrownError p = none) ∧
    (∀ status sx body p, respOk status = false →
      getTransactionDetails (.response status sx body) p = none) ∧
    (∀ status sx p, getTransactionDetails (.response status sx .invalidJson) p = none) ∧
    (∀ raw : RawQuote, parseQuoteResponse raw = none ↔
      (raw.estimatedGas = none ∨ raw.route = none ∨
       raw.expectedOutput = none ∨ raw.priceImpact = none)) ∧
    (∀ status sx raw p, parseQuoteResponse raw = none →
      getTransactionDetails (.response status sx (.json raw)) p = none) ∧
    (∀ status sx p (g : Option Int) (r : Option (List Unit)) (o : Option String),
      getTransactionDetails (.response status sx (.json ⟨g, r, o, none⟩)) p = none) := by
  have hparse : ∀ raw : RawQuote, parseQuoteResponse raw = none ↔
      (raw.estimatedGas = none ∨ raw.route = none ∨
       raw.expectedOutput = none ∨ raw.priceImpact = none) := by
    intro raw
    rcases raw with ⟨g, r, o, p⟩
    cases g <;> cases r <;> cases o <;> cases p <;> simp [parseQuoteResponse]
  have hjson : ∀ (status : Nat) (sx : String) (raw : RawQuote) (p : QuoteParams),
      parseQuoteResponse raw = none →
      getTransactionDetails (.response status sx (.json raw)) p = none := by
    intro status sx raw p hraw
    by_cases hOk : respOk status = true
    · simp [getTransactionDetails, hOk, hraw]
    · rw [Bool.not_eq_true] at hOk
      simp [getTransactionDetails, hOk]
  refine ⟨fun p => rfl, ?_, ?_, hparse, hjson, ?_⟩
  · intro status sx body p hBad
    simp [getTransactionDetails, hBad]
  · intro status sx p
    by_cases hOk : respOk status = true
    · simp [getTransactionDetails, hOk]
    · rw [Bool.not_eq_true] at hOk
      simp [getTransactionDetails, hOk]
  · intro status sx p g r o
    exact hjson status sx ⟨g, r, o, none⟩ p ((hparse _).mpr (by simp))

/-- Witness for C5 at a concrete input: a 200 response whose body has
`estimatedGas`, `route` and `expectedOutput` but no `priceImpact`
resolves to `null`, and a 500 response resolves to `null`. -/
theorem getTransactionDetails_null_on_failure_witness :
    getTransactionDetails (.response 200 "OK"
        (.json ⟨some 21000, some [], some "49.9", none⟩))
      ⟨"56", "137", "0xa", "0xb", "50"⟩ = none ∧
    getTransactionDetails (.response 500 "ISE" (.json ⟨some 21000, some [], some "49.9", some "0.1%"⟩))
      ⟨"56", "137", "0xa", "0xb", "50"⟩ = none :=
  ⟨getTransactionDetails_null_on_failure.2.2.2.2.2 200 "OK"
      ⟨"56", "137", "0xa", "0xb", "50"⟩ (some 21000) (some []) (some "49.9"),
   getTransactionDetails_null_on_failure.2.1 500 "ISE"
      (.json ⟨some 21000, some [], some "49.9", some "0.1%"⟩)
      ⟨"56", "137", "0xa", "0xb", "50"⟩ (by decide)⟩

/-- C6: extraction fails exactly when the model reply contains no
`\x7b...\x7d` substring, when the extracted substring is malformed JSON,
or when validation fails on one of the five required string fields; a
reply that is valid JSON with exactly those five string fields validates
and passes through unchanged. -/
theorem extractTransactionDetails_spec :
    (∀ s : String, (∃ d, extractTransactionDetails (.ok (.str s)) = .ok d) ↔
      (∃ sub v d, extractBraces s = some sub ∧ jsonParse sub = some v ∧
        validateTransactionDetails v = some d)) ∧
    (∀ s sub v d, extractBraces s = some sub → jsonParse sub = some v →
      validateTransactionDetails v = some d →
      extractTransactionDetails (.ok (.str s)) = .ok d) ∧
    (∀ s, extractBraces s = none →
      extractTransactionDetails (.ok (.str s)) =
        .error ("Failed to extract transaction parameters: Failed to parse transaction details: No JSON object found in LLM response")) ∧
    (∀ s sub, extractBraces s = some sub → jsonParse sub = none →
      extractTransactionDetails (.ok (.str s)) =
        .error ("Failed to extract transaction parameters: Failed to parse transaction details: " ++ jsonSyntaxErrorMsg)) ∧
    (∀ s sub v, extractBraces s = some sub → jsonParse sub = some v →
      validateTransactionDetails v = none →
      extractTransactionDetails (.ok (.str s)) =
        .error ("Failed to extract transaction parameters: Failed to parse transaction details: " ++ zodTxErrorMsg)) ∧
    (∀ ms, (validateTransactionDetails (.obj ms)).isSome = true ↔
      ((getStrField ms "fromChain").isSome = true ∧ (getStrField ms "toChain").isSome = true ∧
       (getStrField ms "amount").isSome = true ∧ (getStrField ms "fromToken").isSome = true ∧
       (getStrField ms "toToken").isSome = true)) ∧
    (∀ fc tc am ft tt : String,
      validateTransactionDetails (.obj [("fromChain", .str fc), ("toChain", .str tc),
        ("amount", .str am), ("fromToken", .str ft), ("toToken", .str tt)]) =
        some ⟨fc, tc, am, ft, tt⟩) := by
  have hok : ∀ s sub v d, extractBraces s = some sub → jsonParse sub = some v →
      validateTransactionDetails v = some d →
      extractTransactionDetails (.ok (.str s)) = .ok d := by
    intro s sub v d h1 h2 h3
    simp [extractTransactionDetails, h1, h2, h3]
  refine ⟨?_, hok, ?_, ?_, ?_, ?_, ?_⟩
  · intro s
    constructor
    · rintro ⟨d, hd⟩
      cases h1 : extractBraces s with
      | none => simp [extractTransactionDetails, h1] at hd
      | some sub =>
        cases h2 : jsonParse sub with
        | none => simp [extractTransactionDetails, h1, h2] at hd
        | some v =>
          cases h3 : validateTransactionDetails v with
          | none => simp [extractTransactionDetails, h1, h2, h3] at hd
          | some d2 => exact ⟨sub, v, d2, rfl, h2, h3⟩
    · rintro ⟨sub, v, d, h1, h2, h3⟩
      exact ⟨d, hok s sub v d h1 h2 h3⟩
  · intro s h1
    simp [extractTransactionDetails, h1]
  · intro s sub h1 h2
    simp [extractTransactionDetails, h1, h2]
  · intro s sub v h1 h2 h3
    simp [extractTransactionDetails, h1, h2, h3]
  · intro ms
    cases h1 : getStrField ms "fromChain" <;>
      cases h2 : getStrField ms "toChain" <;>
        cases h3 : getStrField ms "amount" <;>
          cases h4 : getStrField ms "fromToken" <;>
            cases h5 : getStrField ms "toToken" <;>
              simp [validateTransactionDetails, h1, h2, h3, h4, h5]
  · intro fc tc am ft tt
    rfl

/-- Witness for C6 at concrete inputs: the spec's example JSON reply
validates and passes through unchanged, and a reply containing no brace
substring fails extraction with the modelled parse-failure error. -/
theorem extractTransactionDetails_spec_witness :
    extractTransactionDetails (.ok (.str "\x7b\"fromChain\":\"Ethereum\",\"toChain\":\"Polygon\",\"amount\":\"100\",\"fromToken\":\"ETH\",\"toToken\":\"ETH\"\x7d")) =
      .ok ⟨"Ethereum", "Polygon", "100", "ETH", "ETH"⟩ ∧
    extractTransactionDetails (.ok (.str "I could not find any JSON to give you.")) =
      .error ("Failed to extract transaction parameters: Failed to parse transaction details: No JSON object found in LLM response") :=
  ⟨extractTransactionDetails_spec.2.1
      "\x7b\"fromChain\":\"Ethereum\",\"toChain\":\"Polygon\",\"amount\":\"100\",\"fromToken\":\"ETH\",\"toToken\":\"ETH\"\x7d"
      "\x7b\"fromChain\":\"Ethereum\",\"toChain\":\"Polygon\",\"amount\":\"100\",\"fromToken\":\"ETH\",\"toToken\":\"ETH\"\x7d"
      (.obj [("fromChain", .str "Ethereum"), ("toChain", .str "Polygon"),
        ("amount", .str "100"), ("fromToken", .str "ETH"), ("toToken", .str "ETH")])
      ⟨"Ethereum", "Polygon", "100", "ETH", "ETH"⟩ rfl rfl rfl,
   extractTransactionDetails_spec.2.2.1 "I could not find any JSON to give you." rfl⟩

/-- C1: whenever at least one of the two chain-lookup calls resolves
with `success:false`, the pipeline returns the fixed chain-failure
message together with a diagnostic payload containing both chain
results, and neither the token lookup nor the quote lookup is invoked
(zero started calls of each). -/
theorem nitro_chain_failure_halts (llmResult : Except String LLMContent)
    (chainApi : String → ChainApiBehavior)
    (tokenApi : String → String → TokenApiBehavior)
    (quoteApi : QuoteParams → QuoteApiBehavior)
    (query now : String) (details : TransactionDetails)
    (hex : extractTransactionDetails llmResult = .ok details)
    (hfail :
      (getChainDetails (chainApi details.fromChain) details.fromChain now).success = false ∨
      (getChainDetails (chainApi details.toChain) details.toChain now).success = false) :
    nitro llmResult chainApi tokenApi quoteApi query now =
      ⟨chainFailMsg,
       .chainError (getChainDetails (chainApi details.fromChain) details.fromChain now)
         (getChainDetails (chainApi details.toChain) details.toChain now), 0, 0⟩ := by
  unfold nitro
  rw [hex]
  rcases hfail with h | h <;> simp [h]

/-- Witness for C1 at a concrete input: both chain lookups hit a thrown
network error, and the pipeline returns the fixed message, both failure
results, and zero token/quote calls. -/
theorem nitro_chain_failure_halts_witness :
    nitro (.ok (.str "\x7b\"fromChain\":\"BSC\",\"toChain\":\"Polygon\",\"amount\":\"50\",\"fromToken\":\"USDT\",\"toToken\":\"USDT\"\x7d"))
      (fun _ => .thrownError "socket hang up") (fun _ _ => .thrownError)
      (fun _ => .thrownError) "q" "T" =
      ⟨chainFailMsg,
       .chainError (chainLookupFailure "socket hang up" "T")
         (chainLookupFailure "socket hang up" "T"), 0, 0⟩ :=
  nitro_chain_failure_halts _ _ _ _ "q" "T"
    ⟨"BSC", "Polygon", "50", "USDT", "USDT"⟩ rfl (Or.inl rfl)

/-- C3: when both chain lookups return `success:true` but either side's
match list is empty, the pipeline halts before completing token or quote
resolution (at most one token call started, no quote call) and returns a
user-facing error message plus a diagnostic payload; no success tuple is
produced.  (In the source, `data[0]?.chain` is `undefined` and the later
`.chainId` access throws a `TypeError` that the outer `catch`
converts.) -/
theorem nitro_empty_chain_match_halts (llmResult : Except String LLMContent)
    (chainApi : String → ChainApiBehavior)
    (tokenApi : String → String → TokenApiBehavior)
    (quoteApi : QuoteParams → QuoteApiBehavior)
    (query now : String) (details : TransactionDetails)
    (fromList toList : List ProcessedChain)
    (hex : extractTransactionDetails llmResult = .ok details)
    (hfs : (getChainDetails (chainApi details.fromChain) details.fromChain now).success = true)
    (hts : (getChainDetails (chainApi details.toChain) details.toChain now).success = true)
    (hfd : (getChainDetails (chainApi details.fromChain) details.fromChain now).data = some fromList)
    (htd : (getChainDetails (chainApi details.toChain) details.toChain now).data = some toList)
    (hempty : fromList = [] ∨ toList = []) :
    ∃ e n, n ≤ 1 ∧
      nitro llmResult chainApi tokenApi quoteApi query now =
        ⟨genericErrorMsg, .genericError e query, n, 0⟩ := by
  unfold nitro
  rw [hex]
  rcases hempty with h | h
  · subst h
    refine ⟨undefinedChainIdErrorMsg, 0, Nat.zero_le 1, ?_⟩
    simp [hfs, hts, hfd, htd]
  · subst h
    cases fromList with
    | nil =>
      refine ⟨undefinedChainIdErrorMsg, 0, Nat.zero_le 1, ?_⟩
      simp [hfs, hts, hfd, htd]
    | cons c rest =>
      refine ⟨undefinedChainIdErrorMsg, 1, Nat.le_refl 1, ?_⟩
      simp [hfs, hts, hfd, htd]

/-- Witness for C3 at a concrete input: both chain lookups succeed
against a directory holding one chain that does not match the queried
names, so both match lists are empty and the run returns the generic
error tuple with no completed token or quote resolution. -/
theorem nitro_empty_chain_match_halts_witness :
    ∃ e n, n ≤ 1 ∧
      nitro (.ok (.str "\x7b\"fromChain\":\"BSC\",\"toChain\":\"Polygon\",\"amount\":\"50\",\"fromToken\":\"USDT\",\"toToken\":\"USDT\"\x7d"))
        (fun _ => .response 200 "OK" (.wellFormed []))
        (fun _ _ => .thrownError) (fun _ => .thrownError) "q" "T" =
        ⟨genericErrorMsg, .genericError e "q", n, 0⟩ :=
  nitro_empty_chain_match_halts _ _ _ _ "q" "T"
    ⟨"BSC", "Polygon", "50", "USDT", "USDT"⟩ [] [] rfl rfl rfl rfl rfl
    (Or.inl rfl)

/-- C8: when extraction succeeds, both chain lookups succeed with at
least one match, both token lookups return records and the quote lookup
returns a valid quote, the tool returns the tuple of the formatted
summary string — `Found route to {toToken} on {toChain} chain` followed
by the amount, expected output, price impact and estimated gas — and an
object holding exactly `fromChain`, `toChain`, `fromToken`, `toToken`,
`amount` and `quote`. -/
theorem nitro_success_path (llmResult : Except String LLMContent)
    (chainApi : String → ChainApiBehavior)
    (tokenApi : String → String → TokenApiBehavior)
    (quoteApi : QuoteParams → QuoteApiBehavior)
    (query now : String) (details : TransactionDetails)
    (fromProcessed toProcessed : ProcessedChain)
    (fromRest toRest : List ProcessedChain)
    (ft tt : TokenDetails) (quote : QuoteResponse)
    (hex : extractTransactionDetails llmResult = .ok details)
    (hfs : (getChainDetails (chainApi details.fromChain) details.fromChain now).success = true)
    (hts : (getChainDetails (chainApi details.toChain) details.toChain now).success = true)
    (hfd : (getChainDetails (chainApi details.fromChain) details.fromChain now).data =
      some (fromProcessed :: fromRest))
    (htd : (getChainDetails (chainApi details.toChain) details.toChain now).data =
      some (toProcessed :: toRest))
    (hft : getTokenDetails (tokenApi fromProcessed.chain.chainId details.fromToken)
      fromProcessed.chain.chainId details.fromToken = some ft)
    (htt : getTokenDetails (tokenApi toProcessed.chain.chainId details.toToken)
      toProcessed.chain.chainId details.toToken = some tt)
    (hq : getTransactionDetails
      (quoteApi ⟨fromProcessed.chain.chainId, toProcessed.chain.chainId,
        ft.address, tt.address, details.amount⟩)
      ⟨fromProcessed.chain.chainId, toProcessed.chain.chainId,
        ft.address, tt.address, details.amount⟩ = some quote) :
    nitro llmResult chainApi tokenApi quoteApi query now =
      ⟨formatRouteMsg details quote,
       .success fromProcessed.chain toProcessed.chain ft tt details.amount quote, 2, 1⟩ ∧
    formatRouteMsg details quote =
      "Found route to " ++ details.toToken ++ " on " ++ details.toChain ++
      " chain:\n- Amount: " ++ details.amount ++ " " ++ details.fromToken ++
      "\n- Expected output: " ++ quote.expectedOutput ++ " " ++ details.toToken ++
      "\n- Price impact: " ++ quote.priceImpact ++
      "\n- Estimated gas: " ++ toString quote.estimatedGas := by
  refine ⟨?_, rfl⟩
  unfold nitro
  rw [hex]
  simp [hfs, hts, hfd, htd, hft, htt, hq]

/-- Witness for C8: a full concrete end-to-end run for
"Bridge 50 USDT from BSC to Polygon"; the summary string contains
"Found route to USDT on Polygon chain". -/
theorem nitro_success_path_witness :
    nitro (.ok (.str "\x7b\"fromChain\":\"BSC\",\"toChain\":\"Polygon\",\"amount\":\"50\",\"fromToken\":\"USDT\",\"toToken\":\"USDT\"\x7d"))
      (fun n => if n = "BSC" then
          .response 200 "OK" (.wellFormed
            [⟨some "BSC", some "56", some "evm", some true, none, none, none, none, none, none, none⟩])
        else
          .response 200 "OK" (.wellFormed
            [⟨some "Polygon", some "137", some "evm", some true, none, none, none, none, none, none, none⟩]))
      (fun cid _ => .response 200 "OK" (.json (some [⟨some "USDT", some ("0x" ++ cid), some 6, some cid⟩])))
      (fun _ => .response 200 "OK" (.json ⟨some 21000, some [], some "49.9", some "0.1%"⟩))
      "Bridge 50 USDT from BSC to Polygon" "T" =
      ⟨"Found route to USDT on Polygon chain:\n- Amount: 50 USDT\n- Expected output: 49.9 USDT\n- Price impact: 0.1%\n- Estimated gas: 21000",
       .success ⟨"BSC", "56", "evm", true⟩ ⟨"Polygon", "137", "evm", true⟩
         ⟨"USDT", "0x56", 6, "56"⟩ ⟨"USDT", "0x137", 6, "137"⟩ "50"
         ⟨21000, [], "49.9", "0.1%"⟩, 2, 1⟩ ∧
    listIncludes "Found route to USDT on Polygon chain:\n- Amount: 50 USDT\n- Expected output: 49.9 USDT\n- Price impact: 0.1%\n- Estimated gas: 21000".data
      "Found route to USDT on Polygon chain".data = true :=
  ⟨(nitro_success_path
      (.ok (.str "\x7b\"fromChain\":\"BSC\",\"toChain\":\"Polygon\",\"amount\":\"50\",\"fromToken\":\"USDT\",\"toToken\":\"USDT\"\x7d"))
      (fun n => if n = "BSC" then
          .response 200 "OK" (.wellFormed
            [⟨some "BSC", some "56", some "evm", some true, none, none, none, none, none, none, none⟩])
        else
          .response 200 "OK" (.wellFormed
            [⟨some "Polygon", some "137", some "evm", some true, none, none, none, none, none, none, none⟩]))
      (fun cid _ => .response 200 "OK" (.json (some [⟨some "USDT", some ("0x" ++ cid), some 6, some cid⟩])))
      (fun _ => .response 200 "OK" (.json ⟨some 21000, some [], some "49.9", some "0.1%"⟩))
      "Bridge 50 USDT from BSC to Polygon" "T"
      ⟨"BSC", "Polygon", "50", "USDT", "USDT"⟩
      (processChain "T" ⟨some "BSC", some "56", some "evm", some true, none, none, none, none, none, none, none⟩)
      (processChain "T" ⟨some "Polygon", some "137", some "evm", some true, none, none, none, none, none, none, none⟩)
      [] [] ⟨"USDT", "0x56", 6, "56"⟩ ⟨"USDT", "0x137", 6, "137"⟩
      ⟨21000, [], "49.9", "0.1%"⟩ rfl rfl rfl rfl rfl rfl rfl rfl).1,
   by decide⟩

/-- The returned tuple of any `nitro` run pairs one of the five source
`return` sites' messages with the matching artifact shape. -/
def NitroOutcomeShape (query : String) (o : NitroOutcome) : Prop :=
  (o.message = genericErrorMsg ∧ ∃ e, o.artifact = .genericError e query) ∨
  (o.message = chainFailMsg ∧ ∃ f t, o.artifact = .chainError f t) ∨
  (o.message = tokenFailMsg ∧ ∃ f t, o.artifact = .tokenError f t) ∨
  (o.message = quoteFailMsg ∧ o.artifact = .quoteError) ∨
  (∃ d q, o.message = formatRouteMsg d q ∧
    ∃ fc tc ft tt, o.artifact = .success fc tc ft tt d.amount q)

set_option maxHeartbeats 1000000 in
/-- C9: the nitro tool never rejects: for every behaviour of its
collaborators it resolves to a message/artifact tuple of one of the five
return shapes, and any error escaping the inner stages — in particular a
parameter-extraction failure — is converted to the generic tuple
`(genericErrorMsg, {error, query})` with no token or quote call
started. -/
theorem nitro_never_rejects :
    (∀ e (chainApi : String → ChainApiBehavior)
        (tokenApi : String → String → TokenApiBehavior)
        (quoteApi : QuoteParams → QuoteApiBehavior) (query now : String),
      nitro (.error e) chainApi tokenApi quoteApi query now =
        ⟨genericErrorMsg,
         .genericError ("Failed to extract transaction parameters: " ++ e) query, 0, 0⟩) ∧
    (∀ (llmResult : Except String LLMContent)
        (chainApi : String → ChainApiBehavior)
        (tokenApi : String → String → TokenApiBehavior)
        (quoteApi : QuoteParams → QuoteApiBehavior) (query now : String),
      NitroOutcomeShape query (nitro llmResult chainApi tokenApi quoteApi query now)) := by
  constructor
  · intro e chainApi tokenApi quoteApi query now
    rfl
  · intro llmResult chainApi tokenApi quoteApi query now
    unfold nitro
    cases hex : extractTransactionDetails llmResult with
    | error e => exact Or.inl ⟨rfl, e, rfl⟩
    | ok details =>
      simp only []
      repeat' split
      all_goals first
        | exact Or.inl ⟨rfl, _, rfl⟩
        | exact Or.inr (Or.inl ⟨rfl, _, _, rfl⟩)
        | exact Or.inr (Or.inr (Or.inl ⟨rfl, _, _, rfl⟩))
        | exact Or.inr (Or.inr (Or.inr (Or.inl ⟨rfl, rfl⟩)))
        | exact Or.inr (Or.inr (Or.inr (Or.inr
            ⟨details, _, rfl, _, _, _, _, rfl⟩)))

end AsyncNitro
